import Mathlib

/-!
Shallow embedding of the SIM868 driver (pico_simcom868.py) of the GSM-Modem
repository, together with theorems settling the specification claims about it.

Python strings are modelled as lists of characters (`PyStr`); Python runtime
errors and the driver's own exception classes are modelled with `Except`;
the stateful retry loop of `get_gps_data` is modelled as a function of the
sequence of transport responses, returning the observable run (number of
GNSS status queries sent, number of sleeps performed, and the outcome).
-/

/-- Python strings, modelled as lists of characters. -/
abbrev PyStr := List Char

/-- Python runtime errors raised by the operations modelled here. -/
inductive PyErr where
  | typeError
  | indexError
  | attributeError
  deriving DecidableEq

/-- Python's substring test for strings: `sub in s` holds when `sub` occurs as
a contiguous segment of `s`, i.e. is a prefix of some suffix of `s`. -/
def pyContains (s sub : PyStr) : Bool :=
  if sub.isPrefixOf s then true
  else
    match s with
    | [] => false
    | _ :: t => pyContains t sub

deriving instance DecidableEq for Except

/-- Python truthiness of a string: non-empty. -/
def pyTruthy (s : PyStr) : Bool :=
  !s.isEmpty

/-- `str.replace(c, "")`: remove every occurrence of the character `c`. -/
def pyRemoveChar (c : Char) (s : PyStr) : PyStr :=
  s.filter (fun a => a ≠ c)

/-- `GpsData` (pico_simcom868.py lines 10-30): the four string attributes set by
`__init__`.  In the claims' scope every field comes from the comma split of a
fix line, so all four are strings. -/
structure GpsData where
  datetime : PyStr
  latitude : PyStr
  longitude : PyStr
  altitude : PyStr
  deriving DecidableEq

/-- `GpsData.__bool__` (lines 25-30): `all([self.latitude, self.longitude])`,
i.e. both latitude and longitude are truthy (non-empty) strings. -/
def GpsData.pyBool (g : GpsData) : Bool :=
  pyTruthy g.latitude && pyTruthy g.longitude

/-- `parse_serial_raw_data` (lines 102-110): `None` passes through; otherwise,
if the decoded text contains exactly two newline characters, keep the segment
at index 1 of the newline split, then remove every carriage return and then
every newline (the two `replace` calls). -/
def parse_serial_raw_data (data : Option PyStr) : Option PyStr :=
  match data with
  | none => none
  | some decoded_data =>
    let d := if decoded_data.count '\n' = 2
      then (decoded_data.splitOn '\n').getD 1 []
      else decoded_data
    some (pyRemoveChar '\n' (pyRemoveChar '\r' d))

/-- The `,,,,` no-fix marker used by `gps_coordinates_acquired`. -/
def fourCommas : PyStr :=
  (",,,,").toList

/-- The string case of `gps_coordinates_acquired` (lines 271-282):
the line does not contain the `,,,,` marker. -/
def fixAcquired (s : PyStr) : Bool :=
  !pyContains s fourCommas

/-- `gps_coordinates_acquired` (lines 271-282).  Python evaluates the conjunct
`',,,,' not in command_response` first, so when `command_response` is `None`
the `in` operator raises `TypeError` before the `command_response is not None`
conjunct is reached; on a string argument that second conjunct is trivially
true (modelled by the `&& true`). -/
def gps_coordinates_acquired (command_response : Option PyStr) : Except PyErr Bool :=
  match command_response with
  | none => Except.error PyErr.typeError
  | some s => Except.ok (fixAcquired s && true)

/-- The field extraction of `get_gps_data` on a fix-classified line
(lines 290-292): split on commas and read 0-based positions 3 (latitude),
4 (longitude), 2 (datetime), 5 (altitude); a missing position raises
`IndexError` (which of the four accesses raises first does not change the
observable error). -/
def get_gps_data_parse (resp : PyStr) : Except PyErr GpsData :=
  match (resp.splitOn ',')[3]?, (resp.splitOn ',')[4]?,
        (resp.splitOn ',')[2]?, (resp.splitOn ',')[5]? with
  | some la, some lo, some dt, some al => Except.ok ⟨dt, la, lo, al⟩
  | _, _, _, _ => Except.error PyErr.indexError

/-- The message carried by `GpsCoordinatesNotAcquired` (lines 300-301): a fixed
string, interpolating nothing. -/
def gpsNotAcquiredMsg : PyStr :=
  ("Reached maximum gather attempts number. Unable to acquire GPS coordinates data.").toList

/-- Outcome of one `get_gps_data` call. -/
inductive AcquireResult where
  | ok (d : GpsData)
  | notAcquired (msg : PyStr)
  | pyError (e : PyErr)
  deriving DecidableEq

/-- Observable run of `get_gps_data`: GNSS status queries sent, sleeps of
`attempt_wait_time` performed, and the outcome. -/
structure AcquireRun where
  queries : Nat
  sleeps : Nat
  result : AcquireResult
  deriving DecidableEq

/-- The retry loop of `get_gps_data` (lines 287-301), one step per remaining
attempt; `responses i` is what `send_command` returns for the i-th GNSS status
query.  A `None` response makes `gps_coordinates_acquired` raise `TypeError`;
a fix-classified line is split and indexed (possibly raising `IndexError`);
a no-fix line sleeps once and retries; exhaustion raises
`GpsCoordinatesNotAcquired` with the fixed message. -/
def acquireAux (responses : Nat → Option PyStr) (i : Nat) : Nat → AcquireRun
  | 0 => ⟨0, 0, AcquireResult.notAcquired gpsNotAcquiredMsg⟩
  | r + 1 =>
    match responses i with
    | none => ⟨1, 0, AcquireResult.pyError PyErr.typeError⟩
    | some s =>
      if fixAcquired s then
        match get_gps_data_parse s with
        | Except.ok d => ⟨1, 0, AcquireResult.ok d⟩
        | Except.error e => ⟨1, 0, AcquireResult.pyError e⟩
      else
        let rest := acquireAux responses (i + 1) r
        ⟨rest.queries + 1, rest.sleeps + 1, rest.result⟩

/-- `get_gps_data` (lines 258-301) as a function of the transport response
sequence and `attempts_number`. -/
def get_gps_data (responses : Nat → Option PyStr) (attempts_number : Nat) : AcquireRun :=
  acquireAux responses 0 attempts_number

/-- The `fail_message` f-string of `send_command_and_check_response` (line 158),
interpolating the command and the actual response. -/
def failMessage (command command_response : PyStr) : PyStr :=
  ("Expected response string not found in command output!\n Command ").toList
    ++ command ++ (" with answer ").toList ++ command_response

/-- `IncorrectCommandOutput`, carrying its message string. -/
inductive CheckError where
  | incorrectCommandOutput (msg : PyStr)
  deriving DecidableEq

/-- `send_command_and_check_response` (lines 148-163), as a function of the
response string that `send_command` produced: on a contained expected response
return `True`; otherwise raise `IncorrectCommandOutput` when `raise_exception`
is set, else print the failure and still return `True`. -/
def send_command_and_check_response (command expected_response : PyStr)
    (raise_exception : Bool) (command_response : PyStr) : Except CheckError Bool :=
  if pyContains command_response expected_response then
    Except.ok true
  else if raise_exception then
    Except.error (CheckError.incorrectCommandOutput (failMessage command command_response))
  else
    Except.ok true

/-- The transport failure of `read_uart_response`: the UART reports its
transmission is not done. -/
inductive TransportError where
  | notReady
  deriving DecidableEq

/-- `read_uart_response` (lines 112-118): raise when `uart.txdone()` is false;
otherwise parse a truthy (non-empty) raw read and implicitly return `None` for
an absent or empty one. -/
def read_uart_response (txdone : Bool) (raw : Option PyStr) : Except TransportError (Option PyStr) :=
  if txdone then
    match raw with
    | some r =>
      if pyTruthy r then Except.ok (parse_serial_raw_data (some r))
      else Except.ok none
    | none => Except.ok none
  else
    Except.error TransportError.notReady

/-- The observable behaviour of `send_command` (lines 123-146): record the
issued command (with the trailing carriage return when
`add_execute_command_string` is set) and return the result of
`read_uart_response` unchanged - there is no handler around the read. -/
def send_command (command : PyStr) (add_execute_command_string : Bool)
    (txdone : Bool) (raw : Option PyStr) : PyStr × Except TransportError (Option PyStr) :=
  let command := if add_execute_command_string then command ++ [ '\r' ] else command
  (command, read_uart_response txdone raw)

/-- Driver state relevant to `change_module_power_state` (lines 78-100): the
remembered power boolean and a count of power-pin pulse gestures emitted. -/
structure ModuleState where
  module_power_state : Bool
  pulses : Nat
  deriving DecidableEq

/-- `change_module_power_state` (lines 78-100): pulse the power pin once, then
set the remembered flag to `force_state` when one is given
(`isinstance(force_state, bool)` corresponds to `force_state = some b`),
otherwise flip it. -/
def change_module_power_state (force_state : Option Bool) (s : ModuleState) : ModuleState :=
  let s' : ModuleState := { s with pulses := s.pulses + 1 }
  match force_state with
  | some b => { s' with module_power_state := b }
  | none => { s' with module_power_state := !s'.module_power_state }

/-- One attempted match of the pattern of `get_gsm_signal_quality`
(line 193, `\+CSQ: (\d*),\d*`) at a fixed position: the literal `+CSQ: `,
then a greedy digit run (group 1), then a comma; the trailing `\d*` always
matches, so it imposes no condition. -/
def matchCSQ (l : PyStr) : Option PyStr :=
  match l with
  | '+' :: 'C' :: 'S' :: 'Q' :: ':' :: ' ' :: rest =>
    match rest.dropWhile Char.isDigit with
    | ',' :: _ => some (rest.takeWhile Char.isDigit)
    | _ => none
  | _ => none

/-- `re.search`: try the pattern at each position of the string, left to
right, returning the first match. -/
def reSearchCSQ : PyStr → Option PyStr
  | [] => none
  | c :: cs =>
    match matchCSQ (c :: cs) with
    | some g => some g
    | none => reSearchCSQ cs

/-- `get_gsm_signal_quality` (lines 182-195): extract group 1 of the regex
from the `AT+CSQ` response and return it as a string; when the search fails,
`.group(1)` on `None` raises `AttributeError`. -/
def get_gsm_signal_quality (response : PyStr) : Except PyErr PyStr :=
  match reSearchCSQ response with
  | some g => Except.ok g
  | none => Except.error PyErr.attributeError

/-- Decimal value denoted by a digit string, used to compare the returned
string with the 0-31/99 range of the claim. -/
def pyInt (s : PyStr) : Nat :=
  s.foldl (fun acc c => acc * 10 + (c.toNat - 48)) 0

/-- The example fix line from the source docstring (line 274). -/
def exampleFixLine : PyStr :=
  ("+CGNSINF: 1,1,20231122111000.000,50.887232,19.231535,120.429,0.00,0.0,1,,1.0,1.4,0.9,,14,7,5,,31,,").toList

/-- The example no-fix line from the source docstring (line 276). -/
def demoNoFixLine : PyStr :=
  ("+CGNSINF: 0,,,,,,,,,,,,,,,,,,,,").toList

/-- A fix-classified line with empty latitude and longitude fields but no four
consecutive commas. -/
def emptyCoordFixLine : PyStr :=
  ("+CGNSINF: 1,1,20231122111000.000,,,120.429").toList

/-- Claim C2: for every string line the classification is false exactly when
the line contains `,,,,`, but on an absent (`None`) response the code raises
`TypeError` instead of classifying it as no-fix: the `is not None` guard is
evaluated after the `in` test and is unreachable when it matters. -/
theorem gps_coordinates_acquired_spec :
    (∀ s : PyStr, gps_coordinates_acquired (some s) = Except.ok (!pyContains s fourCommas))
    ∧ gps_coordinates_acquired none = Except.error PyErr.typeError := by
  constructor
  · intro s
    simp [gps_coordinates_acquired, fixAcquired]
  · rfl

/-- Counterexample to claim C3 as stated: parsing the docstring's fix line does
not yield a `GpsData` whose datetime is the reformatted `2023-11-22 11:10:00`;
the raw timestamp field is stored unchanged. -/
theorem get_gps_data_parse_datetime_not_reformatted :
    get_gps_data_parse exampleFixLine ≠
      Except.ok ⟨("2023-11-22 11:10:00").toList, ("50.887232").toList,
        ("19.231535").toList, ("120.429").toList⟩ := by decide

/-- Claim C3 (amended): the docstring's fix line is classified as a fix, and
parsing it takes the 0-based comma-split positions 2, 3, 4, 5, yielding
latitude `50.887232`, longitude `19.231535`, altitude `120.429` and datetime
equal to the raw timestamp field `20231122111000.000` (no reformatting). -/
theorem get_gps_data_parse_example :
    gps_coordinates_acquired (some exampleFixLine) = Except.ok true
    ∧ get_gps_data_parse exampleFixLine =
      Except.ok ⟨("20231122111000.000").toList, ("50.887232").toList,
        ("19.231535").toList, ("120.429").toList⟩ := by decide

/-- Claim C10: a line with no `,,,,` marker but with empty latitude and
longitude fields is classified as a fix and parses without error into a falsy
`GpsData`, so successful acquisition does not guarantee the presence
invariant. -/
theorem falsy_gps_data_acquirable :
    gps_coordinates_acquired (some emptyCoordFixLine) = Except.ok true
    ∧ get_gps_data_parse emptyCoordFixLine =
      Except.ok ⟨("20231122111000.000").toList, [], [], ("120.429").toList⟩
    ∧ GpsData.pyBool ⟨("20231122111000.000").toList, [], [], ("120.429").toList⟩ = false := by
  decide

/-- Claim C7: two consecutive toggles without a force argument restore the
remembered module power state, a forced `true` toggle always leaves it `true`,
and every call pulses the power pin exactly once. -/
theorem change_module_power_state_spec (s : ModuleState) (f : Option Bool) :
    (change_module_power_state none (change_module_power_state none s)).module_power_state
      = s.module_power_state
    ∧ (change_module_power_state (some true) s).module_power_state = true
    ∧ (change_module_power_state f s).pulses = s.pulses + 1 := by
  refine ⟨?_, rfl, ?_⟩
  · simp [change_module_power_state]
  · cases f <;> rfl

/-- Claim C5: the verified send returns `True` on a contained expected
response; on mismatch it raises `IncorrectCommandOutput` carrying the command
and the actual response when `raise_exception` is set, and still returns
`True` otherwise - so whenever the call returns a value, that value is
`True`. -/
theorem send_command_and_check_response_spec
    (command expected_response command_response : PyStr) (raise_exception : Bool) :
    (pyContains command_response expected_response = true →
      send_command_and_check_response command expected_response raise_exception command_response
        = Except.ok true)
    ∧ (pyContains command_response expected_response = false →
      send_command_and_check_response command expected_response true command_response
        = Except.error (CheckError.incorrectCommandOutput (failMessage command command_response)))
    ∧ (pyContains command_response expected_response = false →
      send_command_and_check_response command expected_response false command_response
        = Except.ok true)
    ∧ (∀ b, send_command_and_check_response command expected_response raise_exception command_response
        = Except.ok b → b = true) := by
  refine ⟨?_, ?_, ?_, ?_⟩
  · intro h
    simp [send_command_and_check_response, h]
  · intro h
    simp [send_command_and_check_response, h]
  · intro h
    simp [send_command_and_check_response, h]
  · intro b hb
    unfold send_command_and_check_response at hb
    split at hb
    · simpa using hb
    · split at hb
      · simp at hb
      · simpa using hb

/-- Witness for claim C5 at a concrete mismatching call. -/
theorem send_command_and_check_response_spec_witness :
    send_command_and_check_response (("AT").toList) (("OK").toList) true (("ERROR").toList)
      = Except.error (CheckError.incorrectCommandOutput
        (failMessage (("AT").toList) (("ERROR").toList))) :=
  (send_command_and_check_response_spec (("AT").toList) (("OK").toList)
    (("ERROR").toList) true).2.1 (by decide)

/-- Claim C6: `read_uart_response` fails with the not-ready transport error
exactly when the UART reports its transmission is not done, and `send_command`
passes the read outcome through unchanged (no handler, no automatic retry). -/
theorem read_uart_response_not_ready_iff (txdone : Bool) (raw : Option PyStr)
    (command : PyStr) (term : Bool) :
    (read_uart_response txdone raw = Except.error TransportError.notReady ↔ txdone = false)
    ∧ (send_command command term txdone raw).2 = read_uart_response txdone raw := by
  refine ⟨?_, rfl⟩
  cases txdone with
  | false => simp [read_uart_response]
  | true =>
    cases raw with
    | none => simp [read_uart_response]
    | some r =>
      simp only [read_uart_response, if_true]
      split <;> simp

/-- Witness for claim C6 at a concrete not-ready read. -/
theorem read_uart_response_not_ready_iff_witness :
    read_uart_response false none = Except.error TransportError.notReady
    ∧ (send_command (("AT").toList) true false none).2 = read_uart_response false none :=
  ⟨(read_uart_response_not_ready_iff false none (("AT").toList) true).1.mpr rfl,
    (read_uart_response_not_ready_iff false none (("AT").toList) true).2⟩

/-- Claim C9: a line without the `,,,,` marker (hence classified as a fix)
whose comma split has fewer than six fields drives the fixed-offset field
access out of range: the run raises `IndexError`, treated neither as a no-fix
nor as a distinct malformed-record failure. -/
theorem short_fix_line_index_error (line : PyStr)
    (h1 : pyContains line fourCommas = false)
    (h2 : (line.splitOn ',').length < 6) :
    gps_coordinates_acquired (some line) = Except.ok true
    ∧ get_gps_data_parse line = Except.error PyErr.indexError := by
  have h5 : (line.splitOn ',')[5]? = none := by
    rw [List.getElem?_eq_none_iff]
    omega
  refine ⟨?_, ?_⟩
  · simp [gps_coordinates_acquired, fixAcquired, h1]
  · unfold get_gps_data_parse
    rw [h5]
    rcases (line.splitOn ',')[3]? with _ | la <;>
      rcases (line.splitOn ',')[4]? with _ | lo <;>
        rcases (line.splitOn ',')[2]? with _ | dt <;> rfl

/-- Witness for claim C9 at a concrete short fix-classified line. -/
theorem short_fix_line_index_error_witness :
    gps_coordinates_acquired (some (("+CGNSINF: 0,1").toList)) = Except.ok true
    ∧ get_gps_data_parse (("+CGNSINF: 0,1").toList) = Except.error PyErr.indexError :=
  short_fix_line_index_error (("+CGNSINF: 0,1").toList) (by decide) (by decide)

/-- Splitting a text of the shape `a\nb\nc` (no newline inside the segments)
on the newline character yields exactly the three segments. -/
theorem splitOn_two_seps (a b c : PyStr) (ha : '\n' ∉ a) (hb : '\n' ∉ b) (hc : '\n' ∉ c) :
    (a ++ ('\n' :: (b ++ ('\n' :: c)))).splitOn '\n' = [a, b, c] := by
  have hpa : ∀ x ∈ a, ¬((x == '\n') = true) := fun x hx h =>
    ha (by rwa [eq_of_beq h] at hx)
  have hpb : ∀ x ∈ b, ¬((x == '\n') = true) := fun x hx h =>
    hb (by rwa [eq_of_beq h] at hx)
  have hpc : ∀ x ∈ c, ¬((x == '\n') = true) := fun x hx h =>
    hc (by rwa [eq_of_beq h] at hx)
  unfold List.splitOn
  rw [List.splitOnP_first _ _ hpa '\n' (by simp),
    List.splitOnP_first _ _ hpb '\n' (by simp),
    List.splitOnP_eq_single _ _ hpc]

/-- Claim C4: on a decoded text with exactly two newline characters the framing
keeps exactly the segment between the first and second newline, with every
carriage return and newline removed; on any other newline count it keeps the
whole text, carriage returns and newlines stripped. -/
theorem parse_serial_raw_data_spec (a b c s : PyStr)
    (ha : '\n' ∉ a) (hb : '\n' ∉ b) (hc : '\n' ∉ c) :
    parse_serial_raw_data (some (a ++ ('\n' :: (b ++ ('\n' :: c)))))
      = some (pyRemoveChar '\n' (pyRemoveChar '\r' b))
    ∧ (s.count '\n' ≠ 2 →
      parse_serial_raw_data (some s) = some (pyRemoveChar '\n' (pyRemoveChar '\r' s))) := by
  constructor
  · have h0a : a.count '\n' = 0 := List.count_eq_zero.mpr ha
    have h0b : b.count '\n' = 0 := List.count_eq_zero.mpr hb
    have h0c : c.count '\n' = 0 := List.count_eq_zero.mpr hc
    have hsplit := splitOn_two_seps a b c ha hb hc
    simp [parse_serial_raw_data, hsplit, h0a, h0b, h0c]
  · intro h
    simp [parse_serial_raw_data, h]

/-- Witness for claim C4 at a concrete echo-payload-terminator frame and a
concrete one-newline-free text. -/
theorem parse_serial_raw_data_spec_witness :
    parse_serial_raw_data
      (some ((("AT\r").toList) ++ ('\n' :: ((("+CSQ: 17,0\r").toList) ++ ('\n' :: (("\r").toList))))))
      = some (pyRemoveChar '\n' (pyRemoveChar '\r' (("+CSQ: 17,0\r").toList)))
    ∧ parse_serial_raw_data (some (("OK\r").toList))
      = some (pyRemoveChar '\n' (pyRemoveChar '\r' (("OK\r").toList))) :=
  ⟨(parse_serial_raw_data_spec (("AT\r").toList) (("+CSQ: 17,0\r").toList) (("\r").toList)
      (("OK\r").toList) (by decide) (by decide) (by decide)).1,
    (parse_serial_raw_data_spec (("AT\r").toList) (("+CSQ: 17,0\r").toList) (("\r").toList)
      (("OK\r").toList) (by decide) (by decide) (by decide)).2 (by decide)⟩

/-- A run of digits followed by a comma is taken whole by the greedy digit
scan. -/
theorem takeWhile_digit_run (ds rest : PyStr) (h : ∀ c ∈ ds, c.isDigit = true) :
    (ds ++ ',' :: rest).takeWhile Char.isDigit = ds := by
  induction ds with
  | nil =>
    have hcomma : Char.isDigit ',' = false := by decide
    simp [List.takeWhile_cons, hcomma]
  | cons d ds ih =>
    have hd := h d (List.mem_cons_self d ds)
    simp [List.takeWhile_cons, hd, ih (fun c hc => h c (List.mem_cons_of_mem d hc))]

/-- Dropping the greedy digit scan from a digit run followed by a comma leaves
the comma and the tail. -/
theorem dropWhile_digit_run (ds rest : PyStr) (h : ∀ c ∈ ds, c.isDigit = true) :
    (ds ++ ',' :: rest).dropWhile Char.isDigit = ',' :: rest := by
  induction ds with
  | nil =>
    have hcomma : Char.isDigit ',' = false := by decide
    simp [List.dropWhile_cons, hcomma]
  | cons d ds ih =>
    have hd := h d (List.mem_cons_self d ds)
    simp [List.dropWhile_cons, hd, ih (fun c hc => h c (List.mem_cons_of_mem d hc))]

/-- Counterexample to claim C8 as stated: on the response `+CSQ: 45,0` the code
returns the string `45`, which denotes 45, outside 0-31 and distinct from 99 -
no range is enforced (and no integer conversion is performed). -/
theorem get_gsm_signal_quality_not_range_checked :
    get_gsm_signal_quality (("+CSQ: 45,0").toList) = Except.ok (("45").toList)
    ∧ pyInt (("45").toList) = 45
    ∧ ¬(pyInt (("45").toList) ≤ 31 ∨ pyInt (("45").toList) = 99) := by decide

/-- Claim C8 (amended): `get_gsm_signal_quality` returns the first captured
digit group of the `+CSQ:` reply verbatim, as a string, with no range
validation and no integer conversion; the 0-31-or-99 range holds only insofar
as the device reports such a value. -/
theorem get_gsm_signal_quality_returns_reported (ds rest : PyStr)
    (hds : ∀ c ∈ ds, c.isDigit = true) :
    get_gsm_signal_quality ((("+CSQ: ").toList) ++ ds ++ ',' :: rest) = Except.ok ds := by
  have hshape : (("+CSQ: ").toList) ++ ds ++ ',' :: rest
      = '+' :: 'C' :: 'S' :: 'Q' :: ':' :: ' ' :: (ds ++ ',' :: rest) := rfl
  have hm : matchCSQ ('+' :: 'C' :: 'S' :: 'Q' :: ':' :: ' ' :: (ds ++ ',' :: rest))
      = some ((ds ++ ',' :: rest).takeWhile Char.isDigit) := by
    simp only [matchCSQ, dropWhile_digit_run ds rest hds]
  rw [takeWhile_digit_run ds rest hds] at hm
  rw [hshape]
  simp only [get_gsm_signal_quality, reSearchCSQ, hm]

/-- Witness for claim C8 (amended) at a concrete conforming reply. -/
theorem get_gsm_signal_quality_returns_reported_witness :
    get_gsm_signal_quality ((("+CSQ: ").toList) ++ (("17").toList) ++ ',' :: (("0").toList))
      = Except.ok (("17").toList) :=
  get_gsm_signal_quality_returns_reported (("17").toList) (("0").toList) (by decide)

/-- The retry loop never sends more queries than it has remaining attempts. -/
theorem acquireAux_queries_le (responses : Nat → Option PyStr) (i m : Nat) :
    (acquireAux responses i m).queries ≤ m := by
  induction m generalizing i with
  | zero => exact Nat.le_refl 0
  | succ m ih =>
    unfold acquireAux
    cases hr : responses i with
    | none => exact Nat.succ_le_succ (Nat.zero_le m)
    | some s =>
      by_cases hf : fixAcquired s = true
      · simp only [hf, if_true]
        cases get_gps_data_parse s <;> exact Nat.succ_le_succ (Nat.zero_le m)
      · simp only [Bool.not_eq_true] at hf
        simp only [hf, Bool.false_eq_true, if_false]
        exact Nat.succ_le_succ (ih (i + 1))

/-- When every remaining attempt sees a no-fix line, the loop performs one
query and one sleep per attempt and ends in the fixed-message failure. -/
theorem acquireAux_all_no_fix (responses : Nat → Option PyStr) (i m : Nat)
    (h : ∀ j, i ≤ j → j < i + m → ∃ s, responses j = some s ∧ fixAcquired s = false) :
    acquireAux responses i m = ⟨m, m, AcquireResult.notAcquired gpsNotAcquiredMsg⟩ := by
  induction m generalizing i with
  | zero => rfl
  | succ m ih =>
    obtain ⟨s, hs, hfa⟩ := h i (Nat.le_refl i) (by omega)
    have ih' := ih (i + 1) (fun j hj1 hj2 => h j (by omega) (by omega))
    simp [acquireAux, hs, hfa, ih']

/-- When the first fix-classified response is at attempt index `i + t` and its
line parses, the loop stops there: `t + 1` queries, `t` sleeps, parsed data. -/
theorem acquireAux_first_fix (responses : Nat → Option PyStr) (i m t : Nat)
    (s : PyStr) (d : GpsData) (ht : t < m)
    (hbefore : ∀ j, i ≤ j → j < i + t → ∃ s', responses j = some s' ∧ fixAcquired s' = false)
    (hs : responses (i + t) = some s) (hfix : fixAcquired s = true)
    (hparse : get_gps_data_parse s = Except.ok d) :
    acquireAux responses i m = ⟨t + 1, t, AcquireResult.ok d⟩ := by
  induction t generalizing i m with
  | zero =>
    cases m with
    | zero => omega
    | succ m =>
      have hs' : responses i = some s := by simpa using hs
      simp [acquireAux, hs', hfix, hparse]
  | succ t ih =>
    cases m with
    | zero => omega
    | succ m =>
      obtain ⟨s0, hs0, hfa0⟩ := hbefore i (Nat.le_refl i) (by omega)
      have hs' : responses (i + 1 + t) = some s := by
        rw [show i + 1 + t = i + (t + 1) from by omega]
        exact hs
      have step := ih (i + 1) m (by omega)
        (fun j hj1 hj2 => hbefore j (by omega) (by omega)) hs'
      simp [acquireAux, hs0, hfa0, step]

/-- Claim C1 (amended): the run sends at most `max_attempts` queries; when
attempt `k` sees the first fix-classified response and that line parses (at
least six comma fields), the run returns the parsed data after exactly `k`
queries and `k - 1` sleeps, skipping the remaining attempts; when every
attempt sees a no-fix line, the run sends exactly `max_attempts` queries,
sleeps after each of them, and fails with `GpsCoordinatesNotAcquired`
carrying the fixed message (the attempt count is not part of the payload). -/
theorem get_gps_data_retry_spec (responses : Nat → Option PyStr) (n k : Nat)
    (hn : 1 ≤ n) (hk : 1 ≤ k) (hkn : k ≤ n) :
    (get_gps_data responses n).queries ≤ n
    ∧ (∀ s d, (∀ j, j < k - 1 → ∃ s', responses j = some s' ∧ fixAcquired s' = false) →
        responses (k - 1) = some s → fixAcquired s = true →
        get_gps_data_parse s = Except.ok d →
        get_gps_data responses n = ⟨k, k - 1, AcquireResult.ok d⟩)
    ∧ ((∀ j, j < n → ∃ s', responses j = some s' ∧ fixAcquired s' = false) →
        get_gps_data responses n = ⟨n, n, AcquireResult.notAcquired gpsNotAcquiredMsg⟩) := by
  refine ⟨acquireAux_queries_le responses 0 n, ?_, ?_⟩
  · intro s d hb hs hf hp
    have h1 := acquireAux_first_fix responses 0 n (k - 1) s d (by omega)
      (fun j hj1 hj2 => hb j (by omega)) (by simpa using hs) hf hp
    have h2 : k - 1 + 1 = k := by omega
    rw [get_gps_data, h1, h2]
  · intro h
    exact acquireAux_all_no_fix responses 0 n (fun j hj1 hj2 => h j (by omega))

/-- Response sequence of the spec scenario: no-fix lines on attempts 1 and 2,
the docstring fix line from attempt 3 on. -/
def demoResponses (j : Nat) : Option PyStr :=
  if j < 2 then some demoNoFixLine else some exampleFixLine

/-- Witness for claim C1 (amended) at the spec scenario: two no-fix attempts,
then a fix; exactly three queries, two sleeps, parsed data returned. -/
theorem get_gps_data_retry_spec_witness :
    get_gps_data demoResponses 3
      = ⟨3, 2, AcquireResult.ok ⟨("20231122111000.000").toList, ("50.887232").toList,
          ("19.231535").toList, ("120.429").toList⟩⟩ := by
  refine (get_gps_data_retry_spec demoResponses 3 3 (by decide) (by decide)
    (by decide)).2.1 exampleFixLine _ ?_ ?_ ?_ ?_
  · intro j hj
    refine ⟨demoNoFixLine, ?_, by decide⟩
    have hj2 : j < 2 := by omega
    simp [demoResponses, hj2]
  · rfl
  · decide
  · decide

/-- Counterexample to claim C1 as stated: after exhausting 2 attempts and
after exhausting 3 attempts the raised `GpsCoordinatesNotAcquired` carries the
same fixed payload, so the exception does not carry the attempt count; and a
fix-classified line with too few fields makes the run raise `IndexError`
rather than return a parsed `GpsData`. -/
theorem get_gps_data_retry_claim_counterexample :
    (get_gps_data (fun _ => some demoNoFixLine) 2).result
      = AcquireResult.notAcquired gpsNotAcquiredMsg
    ∧ (get_gps_data (fun _ => some demoNoFixLine) 3).result
      = AcquireResult.notAcquired gpsNotAcquiredMsg
    ∧ (get_gps_data (fun _ => some (("+CGNSINF: 0,1").toList)) 1).result
      = AcquireResult.pyError PyErr.indexError := by decide
